import Mathlib

/-!
Verification development for the CXL mailbox command processor
(`hw/cxl/cxl-mailbox-utils.c`): a shallow embedding of the poison record
store, the dynamic-capacity extent store, the background-operation tracker,
the command dispatcher and the tunneling relay, together with theorems about
their behaviour.

Machine integers of the C source (`uint64_t`, `size_t`, ...) are modelled as
`Nat`; the quantities involved (addresses, lengths, counters, percentages)
never wrap in the executions studied here, and where a C field is narrower
(`uint8_t` status byte) an explicit `% 256` is kept.
-/

/-- Return codes of the mailbox protocol (`CXLRetCode` in the source). -/
inductive CXLRetCode where
  | SUCCESS
  | BG_STARTED
  | INVALID_INPUT
  | INVALID_PAYLOAD_LENGTH
  | INTERNAL_ERROR
  | UNSUPPORTED
  | BUSY
  | MEDIA_DISABLED
  | INVALID_PA
  | INVALID_EXTENT_LIST
  | INJECT_POISON_LIMIT
deriving DecidableEq, Repr

/-- Cache line size in bytes (`CXL_CACHE_LINE_SIZE`). -/
def CXL_CACHE_LINE_SIZE : Nat := 64

/-- Maximum number of live poison records (`CXL_POISON_LIST_LIMIT`). -/
def CXL_POISON_LIST_LIMIT : Nat := 256

/-- Tick period of the background-operation timer in ms
(`CXL_MBOX_BG_UPDATE_FREQ`). -/
def CXL_MBOX_BG_UPDATE_FREQ : Nat := 1000

/-- Modelled from the spec: the `CXL_MBOX_BACKGROUND_OPERATION` effect flag
bit of `cxl_mailbox.h` (the header is not part of the sources studied here);
only its role as a distinguished bit of the effect mask matters. -/
def CXL_MBOX_BACKGROUND_OPERATION : Nat := 1 <<< 6

/-- Modelled from the spec: the `CXL_POISON_TYPE_INJECTED` record kind tag
(enum in `cxl_device.h`, not part of the sources studied here); only its
presence in the `type` field matters. -/
def CXL_POISON_TYPE_INJECTED : Nat := 3

/-- One poison record (`CXLPoison`): a marked byte range with a kind tag. -/
structure CXLPoison where
  start : Nat
  length : Nat
  type : Nat
deriving DecidableEq, Repr

/-- The poison-related portion of the type-3 device state (`CXLType3Dev`
fields used by the media/poison commands).  Lists are kept in QLIST order:
`QLIST_INSERT_HEAD` is `List.cons`. -/
structure PoisonState where
  poison_list : List CXLPoison
  poison_list_cnt : Nat
  poison_list_overflowed : Bool
  poison_list_bkp : List CXLPoison
  scan_media_results : List CXLPoison
  scan_media_hasrun : Bool
  static_mem_size : Nat
  dc_num_regions : Nat
  dc_total_capacity : Nat
deriving DecidableEq, Repr

/-- Containment test of `cmd_media_inject_poison`'s QLIST_FOREACH:
`dpa >= ent->start && dpa + CXL_CACHE_LINE_SIZE <= ent->start + ent->length`. -/
def inject_contained (dpa : Nat) (e : CXLPoison) : Bool :=
  decide (e.start ≤ dpa ∧ dpa + CXL_CACHE_LINE_SIZE ≤ e.start + e.length)

/-- `cmd_media_inject_poison`.  The `scan_running` flag stands for
`scan_media_running(cci)`. -/
def cmd_media_inject_poison (st : PoisonState) (scan_running : Bool)
    (dpa : Nat) : CXLRetCode × PoisonState :=
  if st.poison_list.any (inject_contained dpa) then (.SUCCESS, st)
  else if scan_running then (.SUCCESS, st)
  else if st.poison_list_cnt = CXL_POISON_LIST_LIMIT then (.INJECT_POISON_LIMIT, st)
  else (.SUCCESS,
    { st with
      poison_list := ⟨dpa, CXL_CACHE_LINE_SIZE, CXL_POISON_TYPE_INJECTED⟩ :: st.poison_list,
      poison_list_cnt := st.poison_list_cnt + 1 })

/-- Membership test of `cmd_media_clear_poison`'s record search:
`(dpa >= ent->start) && (dpa < ent->start + ent->length)`. -/
def clear_pred (dpa : Nat) (e : CXLPoison) : Bool :=
  decide (e.start ≤ dpa ∧ dpa < e.start + e.length)

/-- The list/counter update of `cmd_media_clear_poison` once a containing
record `ent` has been found: remove it, re-insert a head fragment when the
cleared line starts after `ent`, and a tail fragment when it ends before
`ent` ends (or set the sticky overflow flag when the record count is at the
limit). -/
def clear_update (st : PoisonState) (ent : CXLPoison) (dpa : Nat) : PoisonState :=
  let l0 := st.poison_list.eraseP (clear_pred dpa)
  let cnt0 := st.poison_list_cnt - 1
  let l1 := if ent.start < dpa then ⟨ent.start, dpa - ent.start, ent.type⟩ :: l0 else l0
  let cnt1 := if ent.start < dpa then cnt0 + 1 else cnt0
  if dpa + CXL_CACHE_LINE_SIZE < ent.start + ent.length then
    if cnt1 = CXL_POISON_LIST_LIMIT then
      { st with poison_list := l1, poison_list_cnt := cnt1, poison_list_overflowed := true }
    else
      { st with
        poison_list :=
          ⟨dpa + CXL_CACHE_LINE_SIZE,
           ent.start + ent.length - (dpa + CXL_CACHE_LINE_SIZE), ent.type⟩ :: l1,
        poison_list_cnt := cnt1 + 1 }
  else
    { st with poison_list := l1, poison_list_cnt := cnt1 }

/-- `cmd_media_clear_poison`.  `cacheline_ok` stands for the external
`cvc->set_cacheline` hook being absent or succeeding; `scan_running` for
`scan_media_running(cci)`. -/
def cmd_media_clear_poison (st : PoisonState) (scan_running cacheline_ok : Bool)
    (dpa : Nat) : CXLRetCode × PoisonState :=
  if st.static_mem_size ≤ dpa + CXL_CACHE_LINE_SIZE ∧ st.dc_num_regions = 0 then
    (.INVALID_PA, st)
  else if st.dc_num_regions ≠ 0 ∧
      st.static_mem_size + st.dc_total_capacity ≤ dpa + CXL_CACHE_LINE_SIZE then
    (.INVALID_PA, st)
  else if cacheline_ok = false then (.INTERNAL_ERROR, st)
  else if scan_running then (.SUCCESS, st)
  else
    match st.poison_list.find? (clear_pred dpa) with
    | none => (.SUCCESS, st)
    | some ent => (.SUCCESS, clear_update st ent dpa)

/-- The move loop of `cmd_media_scan_media`: walk the backup list, move every
record overlapping the queried range into the live poison list (only while
the live count is below the limit) and into the results list, removing it
from the backup list.  Returns (backup list, poison list, count, results). -/
def scan_move_loop (qs ql : Nat) :
    List CXLPoison → List CXLPoison → Nat → List CXLPoison →
    List CXLPoison × List CXLPoison × Nat × List CXLPoison
  | [], pl, cnt, res => ([], pl, cnt, res)
  | ent :: rest, pl, cnt, res =>
    if qs + ql ≤ ent.start ∨ ent.start + ent.length ≤ qs then
      let r := scan_move_loop qs ql rest pl cnt res
      (ent :: r.1, r.2.1, r.2.2.1, r.2.2.2)
    else
      if cnt < CXL_POISON_LIST_LIMIT then
        scan_move_loop qs ql rest (ent :: pl) (cnt + 1) (ent :: res)
      else
        scan_move_loop qs ql rest pl cnt (ent :: res)

/-- `cmd_media_scan_media` (state effects; the floating-point background
runtime estimate is not modelled, the command always returns
`CXL_MBOX_BG_STARTED` once validation passed).  `pa` and `cnt_lines` are the
request's address and cache-line count. -/
def cmd_media_scan_media (st : PoisonState) (pa cnt_lines : Nat) :
    CXLRetCode × PoisonState :=
  if pa % 64 ≠ 0 then (.INVALID_INPUT, st)
  else
    let query_length := cnt_lines * CXL_CACHE_LINE_SIZE
    if st.static_mem_size < pa + query_length then (.INVALID_PA, st)
    else if st.dc_num_regions ≠ 0 ∧
        st.static_mem_size + st.dc_total_capacity ≤ pa + query_length then
      (.INVALID_PA, st)
    else
      let st1 := { st with scan_media_results := [] }
      let st2 :=
        if st1.poison_list_overflowed then
          { st1 with poison_list := [],
                     poison_list_cnt := st1.poison_list_cnt - st1.poison_list.length }
        else st1
      let r := scan_move_loop pa query_length st2.poison_list_bkp
                 st2.poison_list st2.poison_list_cnt st2.scan_media_results
      (.BG_STARTED,
       { st2 with poison_list_bkp := r.1, poison_list := r.2.1,
                  poison_list_cnt := r.2.2.1, scan_media_results := r.2.2.2 })

/-- `__do_scan_media`: the completion side effect of a scan-media background
operation. -/
def do_scan_media_fin (st : PoisonState) : PoisonState :=
  let results_cnt := st.scan_media_results.length
  let st1 :=
    if st.poison_list_overflowed ∧ st.poison_list_cnt = results_cnt then
      { st with poison_list_overflowed := false }
    else st
  { st1 with scan_media_hasrun := true }

/-- The per-context background-operation tracker (`cci->bg`). -/
structure BgState where
  opcode : Nat
  complete_pct : Nat
  ret_code : Nat
  starttime : Nat
  runtime : Nat
deriving DecidableEq, Repr

/-- Modelled from the spec: `sanitize_running(cci)` of `cxl_device.h` (header
not part of the sources studied here): a background sanitize operation is in
flight. -/
def sanitize_running (bg : BgState) : Bool :=
  decide (0 < bg.runtime) && decide (bg.opcode = 0x4400)

/-- Modelled from the spec: `scan_media_running(cci)` of `cxl_device.h`
(header not part of the sources studied here): a background scan-media
operation is in flight. -/
def scan_media_running (bg : BgState) : Bool :=
  decide (0 < bg.runtime) && decide (bg.opcode = 0x4304)

/-- Device state seen by the sanitize command: the two static capacities,
the media enable toggle and a marker for the zeroing side effect of
`__do_sanitization` (the raw host memory itself is external). -/
structure SanitizeDevState where
  vmem_size : Nat
  pmem_size : Nat
  mediaEnabled : Bool
  sanitized : Bool
deriving DecidableEq, Repr

/-- The duration table of `cmd_sanitize_overwrite`: seconds as a function of
`total_mem` in MiB. -/
def sanitize_secs (total_mem : Nat) : Nat :=
  if total_mem ≤ 512 then 4
  else if total_mem ≤ 1024 then 8
  else if total_mem ≤ 2 * 1024 then 15
  else if total_mem ≤ 4 * 1024 then 30
  else if total_mem ≤ 8 * 1024 then 60
  else if total_mem ≤ 16 * 1024 then 2 * 60
  else if total_mem ≤ 32 * 1024 then 4 * 60
  else if total_mem ≤ 64 * 1024 then 8 * 60
  else if total_mem ≤ 128 * 1024 then 15 * 60
  else if total_mem ≤ 256 * 1024 then 30 * 60
  else if total_mem ≤ 512 * 1024 then 60 * 60
  else if total_mem ≤ 1024 * 1024 then 120 * 60
  else 240 * 60

/-- `cmd_sanitize_overwrite`: computes the runtime from
`(vmem_size + pmem_size) >> 20`, stores it in `cci->bg.runtime`, disables the
media, and either starts a background operation (`secs > 2`) or sanitizes
immediately and re-enables the media.  Output length is 0. -/
def cmd_sanitize_overwrite (st : SanitizeDevState) (bg : BgState) :
    CXLRetCode × Nat × SanitizeDevState × BgState :=
  let total_mem := (st.vmem_size + st.pmem_size) >>> 20
  let secs := sanitize_secs total_mem
  let bg1 := { bg with runtime := secs * 1000 }
  let st1 := { st with mediaEnabled := false }
  if 2 < secs then (.BG_STARTED, 0, st1, bg1)
  else (.SUCCESS, 0, { st1 with sanitized := true, mediaEnabled := true }, bg1)

/-- The background-operation status output payload
(`cmd_infostat_bg_op_sts`'s 8-byte response). -/
structure BgOpStatusOut where
  status : Nat
  rsvd : Nat
  opcode : Nat
  returncode : Nat
  vendor_ext_status : Nat
deriving DecidableEq, Repr

/-- The all-zero status payload (the `memset` baseline of the handler). -/
def zeroBgOpStatus : BgOpStatusOut :=
  { status := 0, rsvd := 0, opcode := 0, returncode := 0, vendor_ext_status := 0 }

/-- `cmd_infostat_bg_op_sts`: reads the tracker, writes the 8-byte payload
(status byte = `complete_pct << 1`, low bit set while `runtime > 0`), and
leaves all state untouched. -/
def cmd_infostat_bg_op_sts (bg : BgState) :
    CXLRetCode × Nat × BgOpStatusOut × BgState :=
  let base := (bg.complete_pct <<< 1) % 256
  let status := if 0 < bg.runtime then base ||| 1 else base
  (.SUCCESS, 8,
   { status := status, rsvd := 0, opcode := bg.opcode,
     returncode := bg.ret_code, vendor_ext_status := 0 }, bg)

/-- Device state driven by the background timer callback: the tracker, the
media toggle (sanitize completion) and the poison store (scan-media
completion). -/
structure CCIDevState where
  bg : BgState
  mediaEnabled : Bool
  pst : PoisonState
deriving DecidableEq, Repr

/-- The completion side effect selected by `bg_timercb`'s switch on the
opcode: re-enable the media after a sanitize (0x4400), finalize the results
after a scan media (0x4304); other opcodes are `__builtin_unreachable()`
there and modelled as no effect.  The tracker itself is untouched. -/
def bg_done_side_effect (st : CCIDevState) : CCIDevState :=
  match st.bg.opcode with
  | 0x4400 => { st with mediaEnabled := true }
  | 0x4304 => { st with pst := do_scan_media_fin st.pst }
  | _ => st

/-- `bg_timercb` at virtual time `now` (ms).  Returns the new state and the
re-armed timer deadline (`none` when the timer is not re-armed).  The C code
asserts `runtime > 0` on entry. -/
def bg_timercb (st : CCIDevState) (now : Nat) : CCIDevState × Option Nat :=
  let total_time := st.bg.starttime + st.bg.runtime
  let st1 : CCIDevState :=
    if total_time ≤ now then
      bg_done_side_effect
        { st with bg := { st.bg with complete_pct := 100, ret_code := 0 } }
    else
      { st with bg := { st.bg with complete_pct := 100 * now / total_time } }
  let rearm := if total_time ≤ now then none else some (now + CXL_MBOX_BG_UPDATE_FREQ)
  if st1.bg.complete_pct = 100 then
    ({ st1 with bg := { st1.bg with starttime := 0, runtime := 0 } }, rearm)
  else (st1, rearm)

/-- One dynamic-capacity region (`CXLDCDRegion`). -/
structure CXLDCDRegion where
  base : Nat
  decode_len : Nat
  len : Nat
  block_size : Nat
  dsmadhandle : Nat
  flags : Nat
deriving DecidableEq, Repr

/-- One extent of the device ledger (`CXLDCDExtent`).  The 16-byte opaque tag
is modelled as a single number (the commands studied here only ever store
the all-zero tag). -/
structure CXLDCDExtent where
  start_dpa : Nat
  len : Nat
  tag : Nat
  shared_seq : Nat
deriving DecidableEq, Repr

/-- One entry of the updated-extent-list input payload
(`updated_dc_extent_list_in_pl`). -/
structure ExtentUpdateEntry where
  start_dpa : Nat
  len : Nat
deriving DecidableEq, Repr

/-- The dynamic-capacity portion of the device state (`ct3d->dc`).  The
extent ledger is kept in QTAILQ order: `QTAILQ_INSERT_TAIL` appends. -/
structure DCState where
  regions : List CXLDCDRegion
  total_capacity : Nat
  extents : List CXLDCDExtent
  total_extent_count : Nat
  ext_list_gen_seq : Nat
deriving DecidableEq, Repr

/-- `cxl_find_dc_region`: reject addresses outside
`[regions[0].base, regions[0].base + total_capacity)`, then scan the regions
from the last to the first and return the first whose base is `≤ dpa`.  (The
C function also receives the length but never uses it.) -/
def cxl_find_dc_region (st : DCState) (dpa : Nat) : Option CXLDCDRegion :=
  match st.regions.head? with
  | none => none
  | some r0 =>
    if dpa < r0.base ∨ r0.base + st.total_capacity ≤ dpa then none
    else st.regions.reverse.find? (fun r => decide (r.base ≤ dpa))

/-- `test_bits`: whether every bit in `[nr, nr + size)` of the bitmap is
set.  (For `size = 0` the C helper returns true, as does this one.) -/
def test_bits (bm : Nat → Bool) (nr size : Nat) : Bool :=
  (List.range size).all fun j => bm (nr + j)

/-- `bitmap_set`: set every bit in `[nr, nr + size)`. -/
def bitmap_set_bits (bm : Nat → Bool) (nr size : Nat) : Nat → Bool :=
  fun b => bm b || (decide (nr ≤ b) && decide (b < nr + size))

/-- The fold of `cxl_detect_malformed_extent_list`: minimum block size over
all regions, starting from `UINT64_MAX`. -/
def min_block_size (st : DCState) : Nat :=
  st.regions.foldl (fun m r => min m r.block_size) (2 ^ 64 - 1)

/-- The validation loop of `cxl_detect_malformed_extent_list`: per entry,
resolve the region, require block-size alignment of address and length, and
reject any overlap with the blocks already covered by earlier entries of the
same batch. -/
def detect_loop (st : DCState) (mbs : Nat) (bm : Nat → Bool) :
    List ExtentUpdateEntry → CXLRetCode
  | [] => .SUCCESS
  | e :: rest =>
    match cxl_find_dc_region st e.start_dpa with
    | none => .INVALID_PA
    | some region =>
      if e.start_dpa % region.block_size ≠ 0 ∨ e.len % region.block_size ≠ 0 then
        .INVALID_EXTENT_LIST
      else if test_bits bm (e.start_dpa / mbs) (e.len / mbs) then
        .INVALID_EXTENT_LIST
      else detect_loop st mbs (bitmap_set_bits bm (e.start_dpa / mbs) (e.len / mbs)) rest

/-- `cxl_detect_malformed_extent_list`: checks the input batch against
itself (and the region layout); it never mutates device state. -/
def cxl_detect_malformed_extent_list (st : DCState)
    (entries : List ExtentUpdateEntry) : CXLRetCode :=
  detect_loop st (min_block_size st) (fun _ => false) entries

/-- `cxl_insert_extent_to_extent_list` with a `NULL` tag: append an extent
with zeroed tag and sequence number at the tail of the ledger. -/
def cxl_insert_extent_to_extent_list (l : List CXLDCDExtent) (dpa len tg sseq : Nat) :
    List CXLDCDExtent :=
  l ++ [⟨dpa, len, tg, sseq⟩]

/-- The overlap rejection test of `cmd_dcd_add_dyn_cap_rsp`'s inner
QTAILQ_FOREACH: exact match, containment in an existing extent, or overlap
of either end. -/
def extent_overlap_reject (ent : CXLDCDExtent) (dpa ln : Nat) : Bool :=
  decide ((ent.start_dpa = dpa ∧ ent.len = ln) ∨
    (ent.start_dpa ≤ dpa ∧ dpa + ln ≤ ent.start_dpa + ent.len) ∨
    ((dpa < ent.start_dpa + ent.len ∧ ent.start_dpa + ent.len < dpa + ln) ∨
     (dpa < ent.start_dpa ∧ ent.start_dpa < dpa + ln)))

/-- The commit loop of `cmd_dcd_add_dyn_cap_rsp`: per entry, reject any
overlap with the extents already in the ledger (including those committed by
earlier entries of this very batch), else append the extent. -/
def add_loop (st : DCState) : List ExtentUpdateEntry → CXLRetCode × DCState
  | [] => (.SUCCESS, st)
  | e :: rest =>
    if st.extents.any (fun ent => extent_overlap_reject ent e.start_dpa e.len) then
      (.INVALID_PA, st)
    else
      add_loop
        { st with extents := cxl_insert_extent_to_extent_list st.extents e.start_dpa e.len 0 0 }
        rest

/-- `cmd_dcd_add_dyn_cap_rsp`: empty batch is a successful no-op; otherwise
run batch validation, then commit the entries one by one. -/
def cmd_dcd_add_dyn_cap_rsp (st : DCState) (entries : List ExtentUpdateEntry) :
    CXLRetCode × DCState :=
  if entries.length = 0 then (.SUCCESS, st)
  else
    let ret := cxl_detect_malformed_extent_list st entries
    if ret ≠ .SUCCESS then (ret, st)
    else add_loop st entries

/-- The ledger scan of one release entry: find the first extent containing
`[dpa, dpa + ln)` (error out at the first partial overlap on the way). -/
def release_scan (dpa ln : Nat) :
    List CXLDCDExtent → Except CXLRetCode (Option CXLDCDExtent)
  | [] => .ok none
  | ent :: rest =>
    if ent.start_dpa ≤ dpa ∧ dpa + ln ≤ ent.start_dpa + ent.len then .ok (some ent)
    else if (dpa < ent.start_dpa + ent.len ∧ ent.start_dpa + ent.len < dpa + ln) ∨
        (dpa < ent.start_dpa ∧ ent.start_dpa < dpa + ln) then
      .error .INVALID_EXTENT_LIST
    else release_scan dpa ln rest

/-- One entry of `cmd_dcd_release_dyn_cap`'s loop on the ledger: locate a
containing extent (no containing extent is `INVALID_PA`, a partial overlap
is `INVALID_EXTENT_LIST`), append up to two remainder fragments at the tail,
then remove the containing extent. -/
def release_one (l : List CXLDCDExtent) (dpa ln : Nat) :
    Except CXLRetCode (List CXLDCDExtent) :=
  match release_scan dpa ln l with
  | .error r => .error r
  | .ok none => .error .INVALID_PA
  | .ok (some ent) =>
    let len1 := dpa - ent.start_dpa
    let len2 := ent.start_dpa + ent.len - dpa - ln
    let l1 := if len1 ≠ 0 then cxl_insert_extent_to_extent_list l ent.start_dpa len1 0 0 else l
    let l2 := if len2 ≠ 0 then cxl_insert_extent_to_extent_list l1 (dpa + ln) len2 0 0 else l1
    .ok (l2.eraseP fun e => decide (e.start_dpa ≤ dpa ∧ dpa + ln ≤ e.start_dpa + e.len))

/-- The per-entry loop of `cmd_dcd_release_dyn_cap` (an error return leaves
the entries already processed committed). -/
def release_loop (st : DCState) : List ExtentUpdateEntry → CXLRetCode × DCState
  | [] => (.SUCCESS, st)
  | e :: rest =>
    match release_one st.extents e.start_dpa e.len with
    | .error r => (r, st)
    | .ok l => release_loop { st with extents := l } rest

/-- `cmd_dcd_release_dyn_cap`: empty batch is `INVALID_INPUT`; otherwise run
batch validation, then release the entries one by one. -/
def cmd_dcd_release_dyn_cap (st : DCState) (entries : List ExtentUpdateEntry) :
    CXLRetCode × DCState :=
  if entries.length = 0 then (.INVALID_INPUT, st)
  else
    let ret := cxl_detect_malformed_extent_list st entries
    if ret ≠ .SUCCESS then (ret, st)
    else release_loop st entries

/-- The output payload of `cmd_dcd_get_dyn_cap_ext_list`. -/
structure GetExtListOut where
  count : Nat
  total_extents : Nat
  generation_num : Nat
  records : List CXLDCDExtent
deriving DecidableEq, Repr

/-- `cmd_dcd_get_dyn_cap_ext_list`: reject a start index beyond
`total_extent_count`, else return `min extent_cnt (total - start)` extents
starting at `start_extent_id`, the stored total count and the stored
generation counter. -/
def cmd_dcd_get_dyn_cap_ext_list (st : DCState) (extent_cnt start_extent_id : Nat) :
    Except CXLRetCode GetExtListOut :=
  if st.total_extent_count < start_extent_id then .error .INVALID_INPUT
  else
    let record_count := min extent_cnt (st.total_extent_count - start_extent_id)
    .ok { count := record_count,
          total_extents := st.total_extent_count,
          generation_num := st.ext_list_gen_seq,
          records := (st.extents.drop start_extent_id).take record_count }

/-- A mutating extent-ledger command together with its payload. -/
inductive DCOp where
  | add (entries : List ExtentUpdateEntry)
  | release (entries : List ExtentUpdateEntry)
deriving DecidableEq, Repr

/-- Apply one ledger command, keeping the resulting state. -/
def applyDCOp (st : DCState) : DCOp → DCState
  | .add es => (cmd_dcd_add_dyn_cap_rsp st es).2
  | .release es => (cmd_dcd_release_dyn_cap st es).2

/-- Apply a sequence of ledger commands. -/
def applyDCOps (st : DCState) (ops : List DCOp) : DCState :=
  ops.foldl applyDCOp st

/-- Identity of a handler function, for the pointer comparisons of the
media-disabled allow-list in `cxl_process_cci_message`. -/
inductive HId where
  | events_get_records
  | ccls_get_partition_info
  | ccls_set_lsa
  | ccls_get_lsa
  | logs_get_log
  | media_get_poison_list
  | media_inject_poison
  | media_clear_poison
  | sanitize_overwrite
  | other (n : Nat)
deriving DecidableEq, Repr

/-- The handlers rejected with `MEDIA_DISABLED` while a sanitize runs
(the pointer comparisons in `cxl_process_cci_message`). -/
def media_disabled_gated : List HId :=
  [.events_get_records, .ccls_get_partition_info, .ccls_set_lsa, .ccls_get_lsa,
   .logs_get_log, .media_get_poison_list, .media_inject_poison,
   .media_clear_poison, .sanitize_overwrite]

/-- One command descriptor (`struct cxl_cmd`): handler identity, required
input length (`none` models the C value `~0`, any length), effect flags, and
the handler itself as a function of input length and device/tracker state.
The descriptor's name string is irrelevant to behaviour and omitted. -/
structure CxlCmdDesc (σ : Type) where
  hid : HId
  in_len : Option Nat
  effect : Nat
  handler : Nat → σ → BgState → CXLRetCode × Nat × σ × BgState

/-- A mailbox context (`CXLCCI`): its sparse command table, background
tracker, and device state. -/
structure CCIState (σ : Type) where
  cxl_cmd_set : Nat → Nat → Option (CxlCmdDesc σ)
  bg : BgState
  dev : σ

/-- The fixed-length check of `cxl_process_cci_message`:
`len_in != cxl_cmd->in && cxl_cmd->in != ~0`. -/
def len_mismatch {σ : Type} (c : CxlCmdDesc σ) (len_in : Nat) : Bool :=
  match c.in_len with
  | some L => decide (len_in ≠ L)
  | none => false

/-- `cxl_process_cci_message` at virtual time `now`: look up the descriptor
(no handler is `UNSUPPORTED`), check the payload length, reject a second
background command with `BUSY`, apply the media-disabled gating during a
sanitize, then run the handler; when a background-capable handler signals
`BG_STARTED`, initialize the tracker and arm the timer one tick ahead.  The
`len_out0` argument is the caller's output-length variable, returned
untouched on the paths that never write `*len_out`.  The last component is
the armed timer deadline. -/
def cxl_process_cci_message {σ : Type} (cci : CCIState σ) (cset ccmd len_in len_out0 now : Nat) :
    CXLRetCode × Nat × CCIState σ × Option Nat :=
  match cci.cxl_cmd_set cset ccmd with
  | none => (.UNSUPPORTED, len_out0, cci, none)
  | some c =>
    if len_mismatch c len_in then (.INVALID_PAYLOAD_LENGTH, len_out0, cci, none)
    else if c.effect &&& CXL_MBOX_BACKGROUND_OPERATION ≠ 0 ∧ 0 < cci.bg.runtime then
      (.BUSY, len_out0, cci, none)
    else if sanitize_running cci.bg ∧ c.hid ∈ media_disabled_gated then
      (.MEDIA_DISABLED, len_out0, cci, none)
    else
      match c.handler len_in cci.dev cci.bg with
      | (hret, hlen, dev1, bg1) =>
        if c.effect &&& CXL_MBOX_BACKGROUND_OPERATION ≠ 0 ∧ hret = .BG_STARTED then
          (hret, hlen,
           { cci with dev := dev1,
                      bg := { bg1 with opcode := (cset <<< 8) ||| ccmd,
                                       complete_pct := 0, ret_code := 0,
                                       starttime := now } },
           some (now + CXL_MBOX_BG_UPDATE_FREQ))
        else (hret, hlen, { cci with dev := dev1, bg := bg1 }, none)

/-- Modelled from the spec: the transport entry point (the mailbox register
handler, which is not among the sources studied here) invokes
`cxl_process_cci_message` with a zero-initialized output-length variable. -/
def cxl_mbox_dispatch {σ : Type} (cci : CCIState σ) (cset ccmd len_in now : Nat) :
    CXLRetCode × Nat × CCIState σ × Option Nat :=
  cxl_process_cci_message cci cset ccmd len_in 0 now

/-- The inner encapsulated message of a tunnel request (`CXLCCIMessage`
header fields; the raw payload bytes are carried opaquely to the inner
handler and not modelled). -/
structure CXLCCIMessage where
  category : Nat
  tag : Nat
  command : Nat
  command_set : Nat
  pl_length : Nat
deriving DecidableEq, Repr

/-- The input payload of `cmd_tunnel_management_cmd`. -/
structure TunnelIn where
  port_or_ld_id : Nat
  target_type : Nat
  size : Nat
  ccimessage : CXLCCIMessage
deriving DecidableEq, Repr

/-- Result of resolving `port_or_ld_id` on the switch's secondary bus
(`pcie_find_port_by_pn`, then `devices[0]`, then the TYPE_CXL_TYPE3 cast). -/
inductive TunnelTargetLookup (σ : Type) where
  | no_port
  | no_device
  | not_type3
  | type3 (vdm_mctp_cci : CCIState σ)

/-- The relevant fields of the tunnel response: `resp_len`
(`length_out + sizeof(CXLCCIMessage)`), the inner message's rewritten
`pl_length`, and the inner return code stored in the inner header. -/
structure TunnelOut where
  resp_len : Nat
  pl_length : Nat
  rc : CXLRetCode
deriving DecidableEq, Repr

/-- `cmd_tunnel_management_cmd`: length/structure validation (the outer
header is 16 bytes, the inner one 12), port resolution, then relay of the
inner message to the target device's own context via
`cxl_process_cci_message`, reporting outer `SUCCESS` once relaying
completed.  A non-zero `target_type` only emits a diagnostic log in the C
code; execution continues unchanged.  `length_out0` is the value of the
handler's uninitialized `length_out` local.  The second component is
`none` on the failure paths (which never write `*len_out`), and
`some (final output length, response fields)` on the relay path. -/
def cmd_tunnel_management_cmd {σ : Type} (env : Nat → TunnelTargetLookup σ)
    (len_in : Nat) (payload : TunnelIn) (length_out0 now : Nat) :
    CXLRetCode × Option (Nat × TunnelOut) :=
  if len_in < 16 then (.INVALID_INPUT, none)
  else if len_in < 16 + payload.size then (.INVALID_INPUT, none)
  else if payload.size < 12 then (.INVALID_INPUT, none)
  else
    match env payload.port_or_ld_id with
    | .no_port => (.INVALID_INPUT, none)
    | .no_device => (.INVALID_INPUT, none)
    | .not_type3 => (.INVALID_INPUT, none)
    | .type3 tcci =>
      match cxl_process_cci_message tcci payload.ccimessage.command_set
          payload.ccimessage.command payload.ccimessage.pl_length length_out0 now with
      | (rc, length_out, _tcci1, _tm) =>
        (.SUCCESS,
         some (length_out + 16,
               { resp_len := length_out + 12, pl_length := length_out, rc := rc }))

/-! Concrete states used by witnesses and counterexamples. -/

/-- A zeroed background tracker (state after `cxl_init_cci` on a freshly
zero-allocated context). -/
def bg0 : BgState :=
  { opcode := 0, complete_pct := 0, ret_code := 0, starttime := 0, runtime := 0 }

/-- An empty poison store on a 1 GiB static device without dynamic
capacity. -/
def pst0 : PoisonState :=
  { poison_list := [], poison_list_cnt := 0, poison_list_overflowed := false,
    poison_list_bkp := [], scan_media_results := [], scan_media_hasrun := false,
    static_mem_size := 2 ^ 30, dc_num_regions := 0, dc_total_capacity := 0 }

/-- Poison store whose only record spans three cache lines at the base of
the device. -/
def pstW5 : PoisonState :=
  { pst0 with poison_list := [⟨0, 192, 1⟩], poison_list_cnt := 1 }

/-- Poison store with one injected single-line record and one backup
record, exercising all three poison commands. -/
def pstW9 : PoisonState :=
  { pst0 with poison_list := [⟨0, 64, 3⟩], poison_list_cnt := 1,
              poison_list_bkp := [⟨128, 64, 2⟩] }

/-- A 512 MiB purely-volatile device with media enabled. -/
def dev512 : SanitizeDevState :=
  { vmem_size := 512 * 2 ^ 20, pmem_size := 0, mediaEnabled := true, sanitized := false }

/-- Timer-visible device state with a sanitize running: started at time 0
for 4000 ms. -/
def devW2 : CCIDevState :=
  { bg := { opcode := 0x4400, complete_pct := 0, ret_code := 0,
            starttime := 0, runtime := 4000 },
    mediaEnabled := false, pst := pst0 }

/-- Timer-visible device state with a sanitize started at time 1000 for
4000 ms. -/
def devCE2 : CCIDevState :=
  { bg := { opcode := 0x4400, complete_pct := 0, ret_code := 0,
            starttime := 1000, runtime := 4000 },
    mediaEnabled := false, pst := pst0 }

/-- Timer-visible device state with a sanitize started at time 0 for
4000 ms, about to complete. -/
def devCE6 : CCIDevState :=
  { bg := { opcode := 0x4400, complete_pct := 0, ret_code := 0,
            starttime := 0, runtime := 4000 },
    mediaEnabled := false, pst := pst0 }

/-- A single dynamic-capacity region: 4096 bytes at base 0, 64-byte
blocks. -/
def region0 : CXLDCDRegion :=
  { base := 0, decode_len := 4096, len := 4096, block_size := 64,
    dsmadhandle := 0, flags := 0 }

/-- Extent store holding one committed extent `[0, 64)`. -/
def dcStA : DCState :=
  { regions := [region0], total_capacity := 4096, extents := [⟨0, 64, 0, 0⟩],
    total_extent_count := 0, ext_list_gen_seq := 0 }

/-- Empty extent store with a non-zero generation counter. -/
def dcStG : DCState :=
  { regions := [region0], total_capacity := 4096, extents := [],
    total_extent_count := 0, ext_list_gen_seq := 5 }

/-- A mailbox context with an empty command table. -/
def cciEmpty : CCIState Unit :=
  { cxl_cmd_set := fun _ _ => none, bg := bg0, dev := () }

/-- Tunnel environment: every port resolves to a directly attached type-3
device whose MCTP context has an empty command table. -/
def tunnelEnv8 : Nat → TunnelTargetLookup Unit := fun _ => .type3 cciEmpty

/-- A tunnel request with a fabric (non-direct) target type. -/
def tunnelIn8 : TunnelIn :=
  { port_or_ld_id := 0, target_type := 1, size := 12,
    ccimessage := { category := 0, tag := 0, command := 0, command_set := 0,
                    pl_length := 0 } }


/-- The counter/list consistency invariant of the poison store: the stored
count equals the number of live records and never exceeds the limit. -/
def poison_inv (st : PoisonState) : Prop :=
  st.poison_list_cnt = st.poison_list.length ∧
  st.poison_list_cnt ≤ CXL_POISON_LIST_LIMIT

/-! Theorems. -/

theorem add_loop_frame (entries : List ExtentUpdateEntry) (st : DCState) :
    (add_loop st entries).2 = { st with extents := (add_loop st entries).2.extents } := by
  induction entries generalizing st with
  | nil => rfl
  | cons e es ih =>
    unfold add_loop
    split
    · rfl
    · exact ih _

theorem release_loop_frame (entries : List ExtentUpdateEntry) (st : DCState) :
    (release_loop st entries).2 =
      { st with extents := (release_loop st entries).2.extents } := by
  induction entries generalizing st with
  | nil => rfl
  | cons e es ih =>
    unfold release_loop
    split
    · rfl
    · exact ih _

theorem cmd_add_frame (st : DCState) (entries : List ExtentUpdateEntry) :
    (cmd_dcd_add_dyn_cap_rsp st entries).2 =
      { st with extents := (cmd_dcd_add_dyn_cap_rsp st entries).2.extents } := by
  unfold cmd_dcd_add_dyn_cap_rsp
  split
  · rfl
  · dsimp only
    split
    · rfl
    · exact add_loop_frame entries st

theorem cmd_release_frame (st : DCState) (entries : List ExtentUpdateEntry) :
    (cmd_dcd_release_dyn_cap st entries).2 =
      { st with extents := (cmd_dcd_release_dyn_cap st entries).2.extents } := by
  unfold cmd_dcd_release_dyn_cap
  split
  · rfl
  · dsimp only
    split
    · rfl
    · exact release_loop_frame entries st

theorem applyDCOp_frame (st : DCState) (op : DCOp) :
    applyDCOp st op = { st with extents := (applyDCOp st op).extents } := by
  cases op with
  | add es => exact cmd_add_frame st es
  | release es => exact cmd_release_frame st es

/-- C1 (amended): when `cxl_detect_malformed_extent_list` rejects the batch,
`cmd_dcd_add_dyn_cap_rsp` returns that error with the extent ledger (indeed
the whole dynamic-capacity state) unchanged: batch-internal validation fully
precedes any mutation. -/
theorem C1_add_batch_validation_precedes (st : DCState)
    (entries : List ExtentUpdateEntry)
    (h : cxl_detect_malformed_extent_list st entries ≠ .SUCCESS) :
    cmd_dcd_add_dyn_cap_rsp st entries =
      (cxl_detect_malformed_extent_list st entries, st) := by
  cases entries with
  | nil => exact absurd rfl h
  | cons e es =>
    unfold cmd_dcd_add_dyn_cap_rsp
    rw [if_neg (by simp), if_pos h]

/-- C1 witness: a misaligned single-entry batch is rejected with the ledger
untouched. -/
theorem C1_witness :
    cmd_dcd_add_dyn_cap_rsp dcStA [⟨1, 64⟩] =
      (cxl_detect_malformed_extent_list dcStA [⟨1, 64⟩], dcStA) :=
  C1_add_batch_validation_precedes dcStA [⟨1, 64⟩] (by decide)

/-- C1 counterexample: a batch whose first entry is fine and whose second
entry exactly matches an existing extent fails with `INVALID_PA`, yet the
first entry remains committed — the ledger is not as it was before the
call. -/
theorem C1_counterexample :
    (cmd_dcd_add_dyn_cap_rsp dcStA [⟨64, 64⟩, ⟨0, 64⟩]).1 = .INVALID_PA ∧
    (cmd_dcd_add_dyn_cap_rsp dcStA [⟨64, 64⟩, ⟨0, 64⟩]).2.extents =
      [⟨0, 64, 0, 0⟩, ⟨64, 64, 0, 0⟩] ∧
    (cmd_dcd_add_dyn_cap_rsp dcStA [⟨64, 64⟩, ⟨0, 64⟩]).2 ≠ dcStA := by decide

/-- C7: neither `cmd_dcd_add_dyn_cap_rsp` nor `cmd_dcd_release_dyn_cap` ever
touches `ext_list_gen_seq`; in particular a successful add that changes the
extent ledger leaves the generation counter reported by
`cmd_dcd_get_dyn_cap_ext_list` exactly as before, contradicting the claimed
strict increase. -/
theorem C7_generation_counter_never_incremented :
    (∀ st entries,
      (cmd_dcd_add_dyn_cap_rsp st entries).2.ext_list_gen_seq = st.ext_list_gen_seq ∧
      (cmd_dcd_release_dyn_cap st entries).2.ext_list_gen_seq = st.ext_list_gen_seq) ∧
    ((cmd_dcd_add_dyn_cap_rsp dcStG [⟨64, 64⟩]).1 = .SUCCESS ∧
     (cmd_dcd_add_dyn_cap_rsp dcStG [⟨64, 64⟩]).2.extents ≠ dcStG.extents ∧
     (cmd_dcd_add_dyn_cap_rsp dcStG [⟨64, 64⟩]).2.ext_list_gen_seq =
       dcStG.ext_list_gen_seq ∧
     cmd_dcd_get_dyn_cap_ext_list (cmd_dcd_add_dyn_cap_rsp dcStG [⟨64, 64⟩]).2 0 0 =
       .ok { count := 0, total_extents := 0, generation_num := 5, records := [] } ∧
     cmd_dcd_get_dyn_cap_ext_list dcStG 0 0 =
       .ok { count := 0, total_extents := 0, generation_num := 5, records := [] }) := by
  constructor
  · intro st entries
    constructor
    · conv_lhs => rw [cmd_add_frame st entries]
    · conv_lhs => rw [cmd_release_frame st entries]
  · exact ⟨rfl, by decide, rfl, rfl, rfl⟩

/-- C10: add/release never write the stored `total_extent_count`: after any
sequence of add/release commands it equals its initial value, and
`cmd_dcd_get_dyn_cap_ext_list` reports exactly that stored field (and uses
it as its pagination bound). -/
theorem C10_total_extent_count_frame :
    (∀ st ops, (applyDCOps st ops).total_extent_count = st.total_extent_count) ∧
    (∀ st extent_cnt,
      cmd_dcd_get_dyn_cap_ext_list st extent_cnt 0 =
        .ok { count := min extent_cnt st.total_extent_count,
              total_extents := st.total_extent_count,
              generation_num := st.ext_list_gen_seq,
              records := st.extents.take (min extent_cnt st.total_extent_count) }) := by
  constructor
  · intro st ops
    induction ops generalizing st with
    | nil => rfl
    | cons op ops ih =>
      have h1 : applyDCOps st (op :: ops) = applyDCOps (applyDCOp st op) ops := rfl
      rw [h1, ih]
      conv_lhs => rw [applyDCOp_frame st op]
  · intro st extent_cnt
    simp [cmd_dcd_get_dyn_cap_ext_list]

/-- C4: a (command-set, command-code) pair with no registered handler is
dispatched to `UNSUPPORTED` with output length zero and no state change. -/
theorem C4_unregistered_unsupported {σ : Type} (cci : CCIState σ)
    (cset ccmd len_in now : Nat) (h : cci.cxl_cmd_set cset ccmd = none) :
    cxl_mbox_dispatch cci cset ccmd len_in now = (.UNSUPPORTED, 0, cci, none) := by
  unfold cxl_mbox_dispatch cxl_process_cci_message
  rw [h]

/-- C4 witness: dispatching an unregistered opcode on an empty table. -/
theorem C4_witness :
    cxl_mbox_dispatch cciEmpty 0x41 7 5 0 = (.UNSUPPORTED, 0, cciEmpty, none) :=
  C4_unregistered_unsupported cciEmpty 0x41 7 5 0 rfl

/-- C8 (amended): `cmd_tunnel_management_cmd` ignores the request's target
type entirely (the C code only emits a diagnostic log for a non-zero target
type): the result for any target type equals the result for a directly
attached port target. -/
theorem C8_target_type_ignored {σ : Type} (env : Nat → TunnelTargetLookup σ)
    (len_in : Nat) (payload : TunnelIn) (length_out0 now t : Nat) :
    cmd_tunnel_management_cmd env len_in { payload with target_type := t }
        length_out0 now =
      cmd_tunnel_management_cmd env len_in payload length_out0 now := by
  cases payload
  rfl

/-- C8 counterexample: a well-formed tunnel request with a fabric target
type (`target_type = 1`) is not rejected: it is forwarded to the directly
attached device's context and the outer command reports `SUCCESS`, relaying
the inner return code. -/
theorem C8_counterexample :
    tunnelIn8.target_type ≠ 0 ∧
    cmd_tunnel_management_cmd tunnelEnv8 28 tunnelIn8 0 0 =
      (.SUCCESS, some (16, { resp_len := 12, pl_length := 0, rc := .UNSUPPORTED })) :=
  ⟨by decide, rfl⟩


theorem sanitize_secs_eq0 (tm : Nat) (h2 : tm ≤ 512) :
    sanitize_secs tm = 4 := by
  rw [sanitize_secs, if_pos h2]

theorem sanitize_secs_eq1 (tm : Nat) (h1 : 512 < tm) (h2 : tm ≤ 1024) :
    sanitize_secs tm = 8 := by
  rw [sanitize_secs]
  repeat rw [if_neg (by omega)]
  rw [if_pos h2]

theorem sanitize_secs_eq2 (tm : Nat) (h1 : 1024 < tm) (h2 : tm ≤ 2 * 1024) :
    sanitize_secs tm = 15 := by
  rw [sanitize_secs]
  repeat rw [if_neg (by omega)]
  rw [if_pos h2]

theorem sanitize_secs_eq3 (tm : Nat) (h1 : 2 * 1024 < tm) (h2 : tm ≤ 4 * 1024) :
    sanitize_secs tm = 30 := by
  rw [sanitize_secs]
  repeat rw [if_neg (by omega)]
  rw [if_pos h2]

theorem sanitize_secs_eq4 (tm : Nat) (h1 : 4 * 1024 < tm) (h2 : tm ≤ 8 * 1024) :
    sanitize_secs tm = 60 := by
  rw [sanitize_secs]
  repeat rw [if_neg (by omega)]
  rw [if_pos h2]

theorem sanitize_secs_eq5 (tm : Nat) (h1 : 8 * 1024 < tm) (h2 : tm ≤ 16 * 1024) :
    sanitize_secs tm = 120 := by
  rw [sanitize_secs]
  repeat rw [if_neg (by omega)]
  rw [if_pos h2]

theorem sanitize_secs_eq6 (tm : Nat) (h1 : 16 * 1024 < tm) (h2 : tm ≤ 32 * 1024) :
    sanitize_secs tm = 240 := by
  rw [sanitize_secs]
  repeat rw [if_neg (by omega)]
  rw [if_pos h2]

theorem sanitize_secs_eq7 (tm : Nat) (h1 : 32 * 1024 < tm) (h2 : tm ≤ 64 * 1024) :
    sanitize_secs tm = 480 := by
  rw [sanitize_secs]
  repeat rw [if_neg (by omega)]
  rw [if_pos h2]

theorem sanitize_secs_eq8 (tm : Nat) (h1 : 64 * 1024 < tm) (h2 : tm ≤ 128 * 1024) :
    sanitize_secs tm = 900 := by
  rw [sanitize_secs]
  repeat rw [if_neg (by omega)]
  rw [if_pos h2]

theorem sanitize_secs_eq9 (tm : Nat) (h1 : 128 * 1024 < tm) (h2 : tm ≤ 256 * 1024) :
    sanitize_secs tm = 1800 := by
  rw [sanitize_secs]
  repeat rw [if_neg (by omega)]
  rw [if_pos h2]

theorem sanitize_secs_eq10 (tm : Nat) (h1 : 256 * 1024 < tm) (h2 : tm ≤ 512 * 1024) :
    sanitize_secs tm = 3600 := by
  rw [sanitize_secs]
  repeat rw [if_neg (by omega)]
  rw [if_pos h2]

theorem sanitize_secs_eq11 (tm : Nat) (h1 : 512 * 1024 < tm) (h2 : tm ≤ 1024 * 1024) :
    sanitize_secs tm = 7200 := by
  rw [sanitize_secs]
  repeat rw [if_neg (by omega)]
  rw [if_pos h2]

theorem sanitize_secs_eq12 (tm : Nat) (h1 : 1024 * 1024 < tm) :
    sanitize_secs tm = 14400 := by
  rw [sanitize_secs]
  repeat rw [if_neg (by omega)]

theorem sanitize_secs_le0 (tm : Nat) (h : tm ≤ 512) :
    sanitize_secs tm ≤ 4 :=
  le_of_eq (sanitize_secs_eq0 tm h)

theorem sanitize_secs_le1 (tm : Nat) (h : tm ≤ 1024) :
    sanitize_secs tm ≤ 8 := by
  by_cases h0 : tm ≤ 512
  · have := sanitize_secs_le0 tm h0
    omega
  · have := sanitize_secs_eq1 tm (by omega) h
    omega

theorem sanitize_secs_le2 (tm : Nat) (h : tm ≤ 2 * 1024) :
    sanitize_secs tm ≤ 15 := by
  by_cases h0 : tm ≤ 1024
  · have := sanitize_secs_le1 tm h0
    omega
  · have := sanitize_secs_eq2 tm (by omega) h
    omega

theorem sanitize_secs_le3 (tm : Nat) (h : tm ≤ 4 * 1024) :
    sanitize_secs tm ≤ 30 := by
  by_cases h0 : tm ≤ 2 * 1024
  · have := sanitize_secs_le2 tm h0
    omega
  · have := sanitize_secs_eq3 tm (by omega) h
    omega

theorem sanitize_secs_le4 (tm : Nat) (h : tm ≤ 8 * 1024) :
    sanitize_secs tm ≤ 60 := by
  by_cases h0 : tm ≤ 4 * 1024
  · have := sanitize_secs_le3 tm h0
    omega
  · have := sanitize_secs_eq4 tm (by omega) h
    omega

theorem sanitize_secs_le5 (tm : Nat) (h : tm ≤ 16 * 1024) :
    sanitize_secs tm ≤ 120 := by
  by_cases h0 : tm ≤ 8 * 1024
  · have := sanitize_secs_le4 tm h0
    omega
  · have := sanitize_secs_eq5 tm (by omega) h
    omega

theorem sanitize_secs_le6 (tm : Nat) (h : tm ≤ 32 * 1024) :
    sanitize_secs tm ≤ 240 := by
  by_cases h0 : tm ≤ 16 * 1024
  · have := sanitize_secs_le5 tm h0
    omega
  · have := sanitize_secs_eq6 tm (by omega) h
    omega

theorem sanitize_secs_le7 (tm : Nat) (h : tm ≤ 64 * 1024) :
    sanitize_secs tm ≤ 480 := by
  by_cases h0 : tm ≤ 32 * 1024
  · have := sanitize_secs_le6 tm h0
    omega
  · have := sanitize_secs_eq7 tm (by omega) h
    omega

theorem sanitize_secs_le8 (tm : Nat) (h : tm ≤ 128 * 1024) :
    sanitize_secs tm ≤ 900 := by
  by_cases h0 : tm ≤ 64 * 1024
  · have := sanitize_secs_le7 tm h0
    omega
  · have := sanitize_secs_eq8 tm (by omega) h
    omega

theorem sanitize_secs_le9 (tm : Nat) (h : tm ≤ 256 * 1024) :
    sanitize_secs tm ≤ 1800 := by
  by_cases h0 : tm ≤ 128 * 1024
  · have := sanitize_secs_le8 tm h0
    omega
  · have := sanitize_secs_eq9 tm (by omega) h
    omega

theorem sanitize_secs_le10 (tm : Nat) (h : tm ≤ 512 * 1024) :
    sanitize_secs tm ≤ 3600 := by
  by_cases h0 : tm ≤ 256 * 1024
  · have := sanitize_secs_le9 tm h0
    omega
  · have := sanitize_secs_eq10 tm (by omega) h
    omega

theorem sanitize_secs_le11 (tm : Nat) (h : tm ≤ 1024 * 1024) :
    sanitize_secs tm ≤ 7200 := by
  by_cases h0 : tm ≤ 512 * 1024
  · have := sanitize_secs_le10 tm h0
    omega
  · have := sanitize_secs_eq11 tm (by omega) h
    omega

theorem sanitize_secs_le_top (tm : Nat) : sanitize_secs tm ≤ 14400 := by
  by_cases h0 : tm ≤ 1024 * 1024
  · have := sanitize_secs_le11 tm h0
    omega
  · have := sanitize_secs_eq12 tm (by omega)
    omega

theorem sanitize_secs_mono (a b : Nat) (hab : a ≤ b) :
    sanitize_secs a ≤ sanitize_secs b := by
  by_cases hb0 : b ≤ 512
  · have hav := sanitize_secs_le0 a (by omega)
    have hbv := sanitize_secs_eq0 b hb0
    omega
  ·
    by_cases hb1 : b ≤ 1024
    · have hav := sanitize_secs_le1 a (by omega)
      have hbv := sanitize_secs_eq1 b (by omega) hb1
      omega
    ·
      by_cases hb2 : b ≤ 2 * 1024
      · have hav := sanitize_secs_le2 a (by omega)
        have hbv := sanitize_secs_eq2 b (by omega) hb2
        omega
      ·
        by_cases hb3 : b ≤ 4 * 1024
        · have hav := sanitize_secs_le3 a (by omega)
          have hbv := sanitize_secs_eq3 b (by omega) hb3
          omega
        ·
          by_cases hb4 : b ≤ 8 * 1024
          · have hav := sanitize_secs_le4 a (by omega)
            have hbv := sanitize_secs_eq4 b (by omega) hb4
            omega
          ·
            by_cases hb5 : b ≤ 16 * 1024
            · have hav := sanitize_secs_le5 a (by omega)
              have hbv := sanitize_secs_eq5 b (by omega) hb5
              omega
            ·
              by_cases hb6 : b ≤ 32 * 1024
              · have hav := sanitize_secs_le6 a (by omega)
                have hbv := sanitize_secs_eq6 b (by omega) hb6
                omega
              ·
                by_cases hb7 : b ≤ 64 * 1024
                · have hav := sanitize_secs_le7 a (by omega)
                  have hbv := sanitize_secs_eq7 b (by omega) hb7
                  omega
                ·
                  by_cases hb8 : b ≤ 128 * 1024
                  · have hav := sanitize_secs_le8 a (by omega)
                    have hbv := sanitize_secs_eq8 b (by omega) hb8
                    omega
                  ·
                    by_cases hb9 : b ≤ 256 * 1024
                    · have hav := sanitize_secs_le9 a (by omega)
                      have hbv := sanitize_secs_eq9 b (by omega) hb9
                      omega
                    ·
                      by_cases hb10 : b ≤ 512 * 1024
                      · have hav := sanitize_secs_le10 a (by omega)
                        have hbv := sanitize_secs_eq10 b (by omega) hb10
                        omega
                      ·
                        by_cases hb11 : b ≤ 1024 * 1024
                        · have hav := sanitize_secs_le11 a (by omega)
                          have hbv := sanitize_secs_eq11 b (by omega) hb11
                          omega
                        ·
                          have hav := sanitize_secs_le_top a
                          have hbv := sanitize_secs_eq12 b (by omega)
                          omega

/-- C3: the sanitize duration is exactly the claimed step table of the
capacity in MiB, the table is monotone, the handler always stores
`secs * 1000` ms in the tracker, and a 512 MiB device yields a 4 s
background-started sanitize with the media disabled. -/
theorem C3_sanitize_duration :
    (∀ tm,
      (tm ≤ 512 → sanitize_secs tm = 4) ∧
      (512 < tm → tm ≤ 1024 → sanitize_secs tm = 8) ∧
      (1024 < tm → tm ≤ 2048 → sanitize_secs tm = 15) ∧
      (2048 < tm → tm ≤ 4096 → sanitize_secs tm = 30) ∧
      (4096 < tm → tm ≤ 8192 → sanitize_secs tm = 60) ∧
      (8192 < tm → tm ≤ 16384 → sanitize_secs tm = 120) ∧
      (16384 < tm → tm ≤ 32768 → sanitize_secs tm = 240) ∧
      (32768 < tm → tm ≤ 65536 → sanitize_secs tm = 480) ∧
      (65536 < tm → tm ≤ 131072 → sanitize_secs tm = 900) ∧
      (131072 < tm → tm ≤ 262144 → sanitize_secs tm = 1800) ∧
      (262144 < tm → tm ≤ 524288 → sanitize_secs tm = 3600) ∧
      (524288 < tm → tm ≤ 1048576 → sanitize_secs tm = 7200) ∧
      (1048576 < tm → sanitize_secs tm = 14400)) ∧
    (∀ a b, a ≤ b → sanitize_secs a ≤ sanitize_secs b) ∧
    (∀ sd bg, (cmd_sanitize_overwrite sd bg).2.2.2.runtime =
      sanitize_secs ((sd.vmem_size + sd.pmem_size) >>> 20) * 1000) ∧
    (cmd_sanitize_overwrite dev512 bg0 =
      (.BG_STARTED, 0, { dev512 with mediaEnabled := false },
       { bg0 with runtime := 4000 })) := by
  refine ⟨fun tm => ?_, sanitize_secs_mono, fun sd bg => ?_, by decide⟩
  · exact ⟨fun h => sanitize_secs_eq0 tm h,
            fun h h2 => sanitize_secs_eq1 tm (by omega) (by omega),
            fun h h2 => sanitize_secs_eq2 tm (by omega) (by omega),
            fun h h2 => sanitize_secs_eq3 tm (by omega) (by omega),
            fun h h2 => sanitize_secs_eq4 tm (by omega) (by omega),
            fun h h2 => sanitize_secs_eq5 tm (by omega) (by omega),
            fun h h2 => sanitize_secs_eq6 tm (by omega) (by omega),
            fun h h2 => sanitize_secs_eq7 tm (by omega) (by omega),
            fun h h2 => sanitize_secs_eq8 tm (by omega) (by omega),
            fun h h2 => sanitize_secs_eq9 tm (by omega) (by omega),
            fun h h2 => sanitize_secs_eq10 tm (by omega) (by omega),
            fun h h2 => sanitize_secs_eq11 tm (by omega) (by omega),
            fun h => sanitize_secs_eq12 tm (by omega)⟩
  · unfold cmd_sanitize_overwrite
    dsimp only
    split <;> rfl

/-- C3 witness: the table, monotonicity and handler-runtime facts
instantiated at concrete capacities. -/
theorem C3_witness :
    sanitize_secs 512 = 4 ∧ sanitize_secs 513 = 8 ∧ sanitize_secs 2000000 = 14400 ∧
    sanitize_secs 100 ≤ sanitize_secs 200000 ∧
    (cmd_sanitize_overwrite dev512 bg0).2.2.2.runtime =
      sanitize_secs ((dev512.vmem_size + dev512.pmem_size) >>> 20) * 1000 :=
  ⟨(C3_sanitize_duration.1 512).1 (by omega),
   (C3_sanitize_duration.1 513).2.1 (by omega) (by omega),
   (C3_sanitize_duration.1
      2000000).2.2.2.2.2.2.2.2.2.2.2.2 (by omega),
   C3_sanitize_duration.2.1 100 200000 (by omega),
   C3_sanitize_duration.2.2.1 dev512 bg0⟩

theorem bg_done_side_effect_bg (st : CCIDevState) :
    (bg_done_side_effect st).bg = st.bg := by
  unfold bg_done_side_effect
  split <;> rfl

theorem bg_timercb_pct (st : CCIDevState) (now : Nat) :
    (bg_timercb st now).1.bg.complete_pct =
      if st.bg.starttime + st.bg.runtime ≤ now then 100
      else 100 * now / (st.bg.starttime + st.bg.runtime) := by
  unfold bg_timercb
  by_cases h : st.bg.starttime + st.bg.runtime ≤ now
  · simp only [if_pos h]
    split
    · simp [bg_done_side_effect_bg]
    · next hne =>
      exact absurd (by rw [bg_done_side_effect_bg]) hne
  · simp only [if_neg h]
    split <;> rfl

/-- C2 (amended): a tick at time `now` while the operation is unfinished
(`now < starttime + runtime`) sets progress to
`⌊100·now/(starttime+runtime)⌋` — not `⌊100·elapsed/runtime⌋` — keeps the
operation running and re-arms the timer one period ahead; progress after a
tick is non-decreasing in the tick time and stays below 100 while
unfinished; a tick at or past `starttime + runtime` sets progress 100 and
resets the tracker to idle (`runtime = 0`, `starttime = 0`). -/
theorem C2_bg_progress (st : CCIDevState) (now now2 : Nat)
    (hrt : 0 < st.bg.runtime) :
    (now < st.bg.starttime + st.bg.runtime →
      (bg_timercb st now).1.bg.complete_pct =
        100 * now / (st.bg.starttime + st.bg.runtime) ∧
      (bg_timercb st now).1.bg.complete_pct < 100 ∧
      (bg_timercb st now).1.bg.runtime = st.bg.runtime ∧
      (bg_timercb st now).2 = some (now + CXL_MBOX_BG_UPDATE_FREQ)) ∧
    (now ≤ now2 →
      (bg_timercb st now).1.bg.complete_pct ≤
        (bg_timercb st now2).1.bg.complete_pct) ∧
    (st.bg.starttime + st.bg.runtime ≤ now →
      (bg_timercb st now).1.bg.complete_pct = 100 ∧
      (bg_timercb st now).1.bg.runtime = 0 ∧
      (bg_timercb st now).1.bg.starttime = 0) := by
  have htot : 0 < st.bg.starttime + st.bg.runtime := by omega
  have hq : ∀ m, m < st.bg.starttime + st.bg.runtime →
      100 * m / (st.bg.starttime + st.bg.runtime) < 100 := by
    intro m hm
    rw [Nat.div_lt_iff_lt_mul htot]
    omega
  refine ⟨fun hlt => ?_, fun hle => ?_, fun hge => ?_⟩
  · have hnot : ¬(st.bg.starttime + st.bg.runtime ≤ now) := by omega
    have hp := bg_timercb_pct st now
    rw [if_neg hnot] at hp
    refine ⟨hp, hp ▸ hq now hlt, ?_, ?_⟩ <;>
      (unfold bg_timercb
       simp only [if_neg hnot]
       rw [if_neg (by simpa using Nat.ne_of_lt (hq now hlt))])
  · rw [bg_timercb_pct, bg_timercb_pct]
    by_cases h1 : st.bg.starttime + st.bg.runtime ≤ now
    · rw [if_pos h1, if_pos (le_trans h1 hle)]
    · by_cases h2 : st.bg.starttime + st.bg.runtime ≤ now2
      · rw [if_neg h1, if_pos h2]
        exact le_of_lt (hq now (by omega))
      · rw [if_neg h1, if_neg h2]
        exact Nat.div_le_div_right (Nat.mul_le_mul_left 100 hle)
  · have hp := bg_timercb_pct st now
    rw [if_pos hge] at hp
    refine ⟨hp, ?_, ?_⟩ <;>
      (unfold bg_timercb
       simp only [if_pos hge]
       rw [if_pos (by rw [bg_done_side_effect_bg])])

/-- C2 witness: the progress formula, monotonicity and completion facts at a
concrete sanitize run (4000 ms starting at time 0). -/
theorem C2_witness :
    (bg_timercb devW2 1000).1.bg.complete_pct = 100 * 1000 / 4000 ∧
    (bg_timercb devW2 1000).1.bg.complete_pct ≤
      (bg_timercb devW2 2000).1.bg.complete_pct ∧
    (bg_timercb devW2 4000).1.bg.complete_pct = 100 ∧
    (bg_timercb devW2 4000).1.bg.runtime = 0 :=
  ⟨((C2_bg_progress devW2 1000 2000 (by decide)).1 (by decide)).1,
   (C2_bg_progress devW2 1000 2000 (by decide)).2.1 (by decide),
   ((C2_bg_progress devW2 4000 4000 (by decide)).2.2 (by decide)).1,
   ((C2_bg_progress devW2 4000 4000 (by decide)).2.2 (by decide)).2.1⟩

/-- C2 counterexample: with `starttime = 1000` and `runtime = 4000`, a tick
at `now = 2000` (elapsed 1000 of 4000, so the claimed formula gives 25) sets
progress to `100·2000/5000 = 40`. -/
theorem C2_counterexample :
    (bg_timercb devCE2 2000).1.bg.complete_pct = 40 ∧
    (bg_timercb devCE2 2000).1.bg.complete_pct ≠
      100 * (2000 - devCE2.bg.starttime) / devCE2.bg.runtime := by decide

/-- C6 (amended): the background-operation status query is side-effect-free
(`SUCCESS`, 8-byte payload, tracker returned unchanged), and returns the
all-zero payload when progress, runtime, opcode and return code are all zero
(the freshly initialized tracker); after a completed operation the tracker is
idle but the payload reports 100% and the completed opcode. -/
theorem C6_bg_status_query (bg : BgState) :
    (cmd_infostat_bg_op_sts bg).1 = .SUCCESS ∧
    (cmd_infostat_bg_op_sts bg).2.1 = 8 ∧
    (cmd_infostat_bg_op_sts bg).2.2.2 = bg ∧
    (bg.complete_pct = 0 → bg.runtime = 0 → bg.opcode = 0 → bg.ret_code = 0 →
      (cmd_infostat_bg_op_sts bg).2.2.1 = zeroBgOpStatus) := by
  refine ⟨rfl, rfl, rfl, fun h1 h2 h3 h4 => ?_⟩
  simp [cmd_infostat_bg_op_sts, zeroBgOpStatus, h1, h2, h3, h4]

/-- C6 witness: a freshly initialized tracker is returned unchanged and its
status payload is all-zero. -/
theorem C6_witness :
    (cmd_infostat_bg_op_sts bg0).2.2.2 = bg0 ∧
    (cmd_infostat_bg_op_sts bg0).2.2.1 = zeroBgOpStatus :=
  ⟨(C6_bg_status_query bg0).2.2.1, (C6_bg_status_query bg0).2.2.2 rfl rfl rfl rfl⟩

/-- C6 counterexample: after a 4000 ms sanitize completes, the tracker is
IDLE (`runtime = 0`, media re-enabled, a new operation may start) yet the
status payload is not all-zero: it reports 100% (status byte 200) and the
sanitize opcode. -/
theorem C6_counterexample :
    (bg_timercb devCE6 4000).1.bg.runtime = 0 ∧
    (bg_timercb devCE6 4000).1.mediaEnabled = true ∧
    (cmd_infostat_bg_op_sts (bg_timercb devCE6 4000).1.bg).2.2.1 ≠ zeroBgOpStatus := by
  decide

theorem clear_poison_found (st : PoisonState) (dpa : Nat) (R : CXLPoison)
    (hfind : st.poison_list.find? (clear_pred dpa) = some R)
    (hv1 : ¬(st.static_mem_size ≤ dpa + CXL_CACHE_LINE_SIZE ∧ st.dc_num_regions = 0))
    (hv2 : ¬(st.dc_num_regions ≠ 0 ∧
        st.static_mem_size + st.dc_total_capacity ≤ dpa + CXL_CACHE_LINE_SIZE)) :
    cmd_media_clear_poison st false true dpa = (.SUCCESS, clear_update st R dpa) := by
  unfold cmd_media_clear_poison
  rw [if_neg hv1, if_neg hv2, if_neg (by simp), if_neg (by simp), hfind]

/-- C5: clearing one cache line contained in a poison record `R` (the first
record of the list covering the line), with the address checks passing, no
scan in progress and the record count below the limit: clearing the head
line of a longer record leaves exactly the one tail-remainder fragment;
clearing the tail line leaves exactly the one head-remainder fragment;
clearing an interior line leaves exactly the two fragments — and in each
case the union of the fragments' ranges with the cleared line is exactly the
range of `R`. -/
theorem C5_clear_fragments (st : PoisonState) (dpa : Nat) (R : CXLPoison)
    (hfind : st.poison_list.find? (clear_pred dpa) = some R)
    (hv1 : ¬(st.static_mem_size ≤ dpa + CXL_CACHE_LINE_SIZE ∧ st.dc_num_regions = 0))
    (hv2 : ¬(st.dc_num_regions ≠ 0 ∧
        st.static_mem_size + st.dc_total_capacity ≤ dpa + CXL_CACHE_LINE_SIZE))
    (hcnt : st.poison_list_cnt < CXL_POISON_LIST_LIMIT) :
    (cmd_media_clear_poison st false true dpa).1 = .SUCCESS ∧
    (dpa = R.start → 64 < R.length →
      (cmd_media_clear_poison st false true dpa).2.poison_list =
        ⟨dpa + 64, R.start + R.length - (dpa + 64), R.type⟩ ::
          st.poison_list.eraseP (clear_pred dpa) ∧
      ∀ a, ((dpa + 64 ≤ a ∧ a < R.start + R.length) ∨ (dpa ≤ a ∧ a < dpa + 64)) ↔
        (R.start ≤ a ∧ a < R.start + R.length)) ∧
    (dpa + 64 = R.start + R.length → 64 < R.length →
      (cmd_media_clear_poison st false true dpa).2.poison_list =
        ⟨R.start, dpa - R.start, R.type⟩ :: st.poison_list.eraseP (clear_pred dpa) ∧
      ∀ a, ((R.start ≤ a ∧ a < dpa) ∨ (dpa ≤ a ∧ a < dpa + 64)) ↔
        (R.start ≤ a ∧ a < R.start + R.length)) ∧
    (R.start < dpa → dpa + 64 < R.start + R.length →
      (cmd_media_clear_poison st false true dpa).2.poison_list =
        ⟨dpa + 64, R.start + R.length - (dpa + 64), R.type⟩ ::
          ⟨R.start, dpa - R.start, R.type⟩ ::
            st.poison_list.eraseP (clear_pred dpa) ∧
      ∀ a, ((R.start ≤ a ∧ a < dpa) ∨ (dpa + 64 ≤ a ∧ a < R.start + R.length) ∨
            (dpa ≤ a ∧ a < dpa + 64)) ↔ (R.start ≤ a ∧ a < R.start + R.length)) := by
  have hpred : R.start ≤ dpa ∧ dpa < R.start + R.length := by
    have h := List.find?_some hfind
    simpa [clear_pred] using h
  have hcnt2 : st.poison_list_cnt < 256 := hcnt
  have hc := clear_poison_found st dpa R hfind hv1 hv2
  rw [hc]
  refine ⟨rfl, fun hd hl => ?_, fun ht hl => ?_, fun h1 h2 => ?_⟩
  · have hRlt : ¬R.start < dpa := by omega
    have htail : dpa + 64 < R.start + R.length := by omega
    have hlim : ¬(st.poison_list_cnt - 1 = 256) := by omega
    constructor
    · simp only [clear_update, CXL_CACHE_LINE_SIZE, CXL_POISON_LIST_LIMIT,
                 if_neg hRlt, if_pos htail, if_neg hlim]
    · intro a
      omega
  · have hRlt : R.start < dpa := by omega
    have htail : ¬(dpa + 64 < R.start + R.length) := by omega
    constructor
    · simp only [clear_update, CXL_CACHE_LINE_SIZE, CXL_POISON_LIST_LIMIT,
                 if_pos hRlt, if_neg htail]
    · intro a
      omega
  · have hlim : ¬(st.poison_list_cnt - 1 + 1 = 256) := by omega
    constructor
    · simp only [clear_update, CXL_CACHE_LINE_SIZE, CXL_POISON_LIST_LIMIT,
                 if_pos h1, if_pos h2, if_neg hlim]
    · intro a
      omega

/-- C5 witness: clearing the middle line of the three-line record
`[0, 192)` leaves exactly the two fragments `[128, 192)` and `[0, 64)`. -/
theorem C5_witness :
    (cmd_media_clear_poison pstW5 false true 64).2.poison_list =
      ⟨64 + 64, 0 + 192 - (64 + 64), 1⟩ :: ⟨0, 64 - 0, 1⟩ ::
        pstW5.poison_list.eraseP (clear_pred 64) :=
  ((C5_clear_fragments pstW5 64 ⟨0, 192, 1⟩ (by decide) (by decide) (by decide)
      (by decide)).2.2.2 (by decide) (by decide)).1

theorem scan_move_loop_inv (qs ql : Nat) (bkp : List CXLPoison) :
    ∀ pl cnt res, cnt = pl.length → cnt ≤ CXL_POISON_LIST_LIMIT →
      (scan_move_loop qs ql bkp pl cnt res).2.2.1 =
        (scan_move_loop qs ql bkp pl cnt res).2.1.length ∧
      (scan_move_loop qs ql bkp pl cnt res).2.2.1 ≤ CXL_POISON_LIST_LIMIT := by
  induction bkp with
  | nil => exact fun pl cnt res hc hb => ⟨hc, hb⟩
  | cons ent rest ih =>
    intro pl cnt res hc hb
    unfold scan_move_loop
    split
    · exact ih pl cnt res hc hb
    · split
      · next hlt =>
        refine ih _ _ _ (by simp [hc]) ?_
        have hlt2 : cnt < 256 := hlt
        show cnt + 1 ≤ 256
        omega
      · exact ih _ _ _ hc hb

/-- C9: every poison command preserves the invariant that the stored record
counter equals the length of the live poison list and stays at most 256:
`cmd_media_inject_poison`, `cmd_media_clear_poison` (including fragment
reinsertion and the overflow path) and `cmd_media_scan_media` (including the
overflow rebuild and the backup-list move loop). -/
theorem C9_poison_count_invariant (st : PoisonState) (hinv : poison_inv st)
    (scanr clok : Bool) (dpa pa cnt_lines : Nat) :
    poison_inv (cmd_media_inject_poison st scanr dpa).2 ∧
    poison_inv (cmd_media_clear_poison st scanr clok dpa).2 ∧
    poison_inv (cmd_media_scan_media st pa cnt_lines).2 := by
  obtain ⟨h1, h2⟩ := hinv
  have h2n : st.poison_list_cnt ≤ 256 := h2
  refine ⟨?_, ?_, ?_⟩
  · simp only [cmd_media_inject_poison, CXL_CACHE_LINE_SIZE,
               CXL_POISON_LIST_LIMIT, CXL_POISON_TYPE_INJECTED]
    split
    · exact ⟨h1, h2⟩
    · split
      · exact ⟨h1, h2⟩
      · split
        · exact ⟨h1, h2⟩
        · next hne =>
          refine ⟨by simp [h1], ?_⟩
          show st.poison_list_cnt + 1 ≤ 256
          omega
  · unfold cmd_media_clear_poison
    split
    · exact ⟨h1, h2⟩
    · split
      · exact ⟨h1, h2⟩
      · split
        · exact ⟨h1, h2⟩
        · split
          · exact ⟨h1, h2⟩
          · split
            · exact ⟨h1, h2⟩
            · next ent hent =>
              have hmem := List.mem_of_find?_eq_some hent
              have hp := List.find?_some hent
              have hlen : (st.poison_list.eraseP (clear_pred dpa)).length + 1 =
                  st.poison_list.length := by
                rw [List.length_eraseP_of_mem hmem hp]
                have hpos : 0 < st.poison_list.length :=
                  List.length_pos.mpr (List.ne_nil_of_mem hmem)
                omega
              simp only [clear_update, CXL_CACHE_LINE_SIZE, CXL_POISON_LIST_LIMIT]
              by_cases hd : ent.start < dpa
              · simp only [if_pos hd]
                split
                · split
                  · next hlim =>
                    refine ⟨?_, ?_⟩
                    · dsimp only
                      simp only [List.length_cons]
                      omega
                    · show st.poison_list_cnt - 1 + 1 ≤ 256
                      omega
                  · next hlim =>
                    refine ⟨?_, ?_⟩
                    · dsimp only
                      simp only [List.length_cons]
                      omega
                    · show st.poison_list_cnt - 1 + 1 + 1 ≤ 256
                      omega
                · refine ⟨?_, ?_⟩
                  · dsimp only
                    simp only [List.length_cons]
                    omega
                  · show st.poison_list_cnt - 1 + 1 ≤ 256
                    omega
              · simp only [if_neg hd]
                split
                · split
                  · next hlim =>
                    refine ⟨?_, ?_⟩
                    · dsimp only
                      omega
                    · show st.poison_list_cnt - 1 ≤ 256
                      omega
                  · next hlim =>
                    refine ⟨?_, ?_⟩
                    · dsimp only
                      simp only [List.length_cons]
                      omega
                    · show st.poison_list_cnt - 1 + 1 ≤ 256
                      omega
                · refine ⟨?_, ?_⟩
                  · dsimp only
                    omega
                  · show st.poison_list_cnt - 1 ≤ 256
                    omega
  · simp only [cmd_media_scan_media, CXL_CACHE_LINE_SIZE, CXL_POISON_LIST_LIMIT]
    split
    · exact ⟨h1, h2⟩
    · split
      · exact ⟨h1, h2⟩
      · split
        · exact ⟨h1, h2⟩
        · by_cases hov : st.poison_list_overflowed = true
          · simp only [if_pos hov]
            have hz : st.poison_list_cnt - st.poison_list.length =
                ([] : List CXLPoison).length := by
              simp [h1]
            exact scan_move_loop_inv pa (cnt_lines * 64) st.poison_list_bkp
              [] (st.poison_list_cnt - st.poison_list.length) [] hz (by omega)
          · simp only [if_neg hov]
            exact scan_move_loop_inv pa (cnt_lines * 64) st.poison_list_bkp
              st.poison_list st.poison_list_cnt [] h1 h2

/-- C9 witness: the invariant is preserved on a concrete store by an inject,
a clear and a scan media. -/
theorem C9_witness :
    poison_inv (cmd_media_inject_poison pstW9 false 0).2 ∧
    poison_inv (cmd_media_clear_poison pstW9 false true 0).2 ∧
    poison_inv (cmd_media_scan_media pstW9 0 4).2 :=
  C9_poison_count_invariant pstW9 ⟨by decide, by decide⟩ false true 0 0 4
